import Mathlib

/-
Verification development for the GP 2 compiler's program-code generator
(`src/Compiler/src/genProgram.c`).

The generator walks the command AST of a GP 2 program and emits the C text of
the runtime `main.c`.  This file gives a shallow embedding of that generator:

* the command AST (`GPCommand`) and declaration list (`GPDeclaration`) mirror
  the `ast.h` structures that `genProgram.c` reads (only the fields the
  generator consumes are modelled);
* the classification analyses `neverFails`, `nullCommand`, `singleRule` are
  translated function-by-function;
* the emitters `generateFailureCode`, `generateRuleCall`,
  `generateProgramCode` (with the bodies of `generateBranchStatement` and
  `generateLoopStatement` inlined at their unique call sites, marked by
  comments), `generateMorphismCode` and `generateRuntimeMain` are translated
  emission-by-emission.

Modelling conventions:
* Each `PTF(fmt, ...)` / `PTFI(fmt, indent, ...)` call becomes one appended
  output entry `(indent, rendered text)` (indent 0 for `PTF`); `%d`/`%s`
  parameters are rendered with `toString`/string append.  At the top of
  `genProgram.c` the macros `RULE_TRACING`, `GRAPH_TRACING` and
  `BACKTRACK_TRACING` are `#undef`-ed, so the tracing emissions guarded by
  them are dead and are not modelled.
* The global flag `graph_copying` (declared outside this translation unit)
  is passed as an explicit parameter, as is the build-time `LIST_HASHING`
  toggle used in `generateRuntimeMain`.
* The global counter `restore_point_count` is threaded through `GenState`.
  `GenState.allocs` is a ghost log that records the value taken by each
  `restore_point_count++` allocation, in order; it is written exactly at the
  increment sites and read nowhere, so it does not influence the emission.
* `print_error` / `print_to_log` write to stderr / the compiler log, not to
  the generated file, so they produce no output entries.  The
  `exit(0)` after the non-termination check in `generateLoopStatement`
  aborts generation; it is modelled by `Except.error` carrying the state at
  the abort point (the file written so far).
-/

set_option linter.unusedVariables false

/-- The contexts of a GP 2 program (enum `ContextType` in `genProgram.c`). -/
inductive ContextType where
  | MAIN_BODY
  | IF_BODY
  | TRY_BODY
  | LOOP_BODY
deriving DecidableEq, Repr

/-- The fields of a rule reference that the generator reads: the rule's name
and the `empty_lhs` / `is_predicate` flags set by the analysis phase. -/
structure GPRuleRef where
  rule_name : String
  empty_lhs : Bool
  is_predicate : Bool
deriving DecidableEq, Repr

/-- The command AST consumed by the generator (`GPCommand` in `ast.h`).
`PROCEDURE_CALL` carries the called procedure's command sequence
(`command->proc_call.procedure->commands`), which is the only field of the
procedure the generator reads.  `BREAK_STATEMENT` carries the `inner_loop`
flag set by prior analysis. -/
inductive GPCommand where
  | COMMAND_SEQUENCE (commands : List GPCommand)
  | RULE_CALL (rule : GPRuleRef)
  | RULE_SET_CALL (rule_set : List GPRuleRef)
  | PROCEDURE_CALL (commands : GPCommand)
  | IF_STATEMENT (condition then_command else_command : GPCommand)
  | TRY_STATEMENT (condition then_command else_command : GPCommand)
  | ALAP_STATEMENT (loop_body : GPCommand)
  | PROGRAM_OR (left_command right_command : GPCommand)
  | SKIP_STATEMENT
  | FAIL_STATEMENT
  | BREAK_STATEMENT (inner_loop : Bool)
deriving Repr

/-- Structure containing data passed between code generation functions
(`CommandData` in `genProgram.c`). -/
structure CommandData where
  context : ContextType
  loop_depth : Nat
  record_changes : Bool
  restore_point : Int
  indent : Nat
deriving DecidableEq, Repr

/-- One output entry: the indentation passed to `PTFI` (0 for `PTF`) and the
rendered text of that single printf call. -/
abbrev OutLine := Nat × String

/-- Generator state: the global `restore_point_count`, the output file
contents, and the ghost allocation log (see the header comment). -/
structure GenState where
  restore_point_count : Nat
  out : List OutLine
  allocs : List Nat
deriving DecidableEq, Repr

/-- One `PTF`/`PTFI` call: append one output entry. -/
def emit (st : GenState) (ind : Nat) (s : String) : GenState :=
  { st with out := st.out ++ [(ind, s)] }

/-- Append a block of already-rendered output entries (a run of consecutive
`PTF`/`PTFI` calls). -/
def emitAll (st : GenState) (ls : List OutLine) : GenState :=
  { st with out := st.out ++ ls }

/-- The post-increment `restore_point_count++`: returns the counter's value
before the increment (the allocated restore-point id) and the bumped state.
The ghost log records the allocated id. -/
def allocRestorePoint (st : GenState) : Int × GenState :=
  ((st.restore_point_count : Int),
   { st with restore_point_count := st.restore_point_count + 1,
             allocs := st.allocs ++ [st.restore_point_count] })

/-- Result of a generation step: `error` models the `exit(0)` taken when a
loop body never fails, carrying the error message and the state (output
written so far) at the abort point. -/
abbrev GenResult := Except (String × GenState) GenState

instance {e a : Type} [DecidableEq e] [DecidableEq a] : DecidableEq (Except e a) := fun x y =>
  match x, y with
  | .ok u, .ok v =>
      if h : u = v then .isTrue (by rw [h]) else .isFalse (by intro hc; cases hc; exact h rfl)
  | .error u, .error v =>
      if h : u = v then .isTrue (by rw [h]) else .isFalse (by intro hc; cases hc; exact h rfl)
  | .ok _, .error _ => .isFalse (by intro hc; cases hc)
  | .error _, .ok _ => .isFalse (by intro hc; cases hc)

/-- The output written at a generation result: the finished file on success,
the partial file on abort. -/
def outputOf (r : GenResult) : List OutLine :=
  match r with
  | .ok st => st.out
  | .error (_, st) => st.out

/-- Whether a generation result is a success. -/
def genOk (r : GenResult) : Bool :=
  match r with
  | .ok _ => true
  | .error _ => false

/-- Sequencing of generation steps: an abort (`exit(0)`) stops everything,
otherwise generation continues from the new state. -/
def genBind (r : GenResult) (f : GenState → GenResult) : GenResult :=
  match r with
  | .error e => .error e
  | .ok st => f st

/- ================= Classification analyses ================= -/

/- `nullCommand` from `genProgram.c`: true if the command does not change the
host graph.  `nullCommandList` is the `while` loop over a command sequence. -/
mutual

def nullCommand : GPCommand → Bool
  | .COMMAND_SEQUENCE commands => nullCommandList commands
  | .RULE_CALL rule => rule.is_predicate
  | .RULE_SET_CALL rule_set => rule_set.all (fun r => r.is_predicate)
  | .PROCEDURE_CALL commands => nullCommand commands
  | .IF_STATEMENT _ then_command else_command =>
      nullCommand then_command && nullCommand else_command
  | .TRY_STATEMENT condition then_command else_command =>
      nullCommand condition && nullCommand then_command && nullCommand else_command
  | .ALAP_STATEMENT loop_body => nullCommand loop_body
  | .PROGRAM_OR left_command right_command =>
      nullCommand left_command && nullCommand right_command
  | .BREAK_STATEMENT _ => true
  | .SKIP_STATEMENT => true
  | .FAIL_STATEMENT => true

def nullCommandList : List GPCommand → Bool
  | [] => true
  | c :: cs => nullCommand c && nullCommandList cs

end

/- `neverFails` from `genProgram.c`: true if the command provably cannot set
`success` to false.  (The unreachable tail of the `RULE_SET_CALL` case after
the complete loop in the C source is dead code and has no translation.) -/
mutual

def neverFails : GPCommand → Bool
  | .COMMAND_SEQUENCE commands => neverFailsList commands
  | .RULE_CALL rule => rule.empty_lhs
  | .RULE_SET_CALL rule_set => rule_set.all (fun r => r.empty_lhs)
  | .PROCEDURE_CALL commands => neverFails commands
  | .IF_STATEMENT _ then_command else_command =>
      neverFails then_command && neverFails else_command
  | .TRY_STATEMENT _ then_command else_command =>
      neverFails then_command && neverFails else_command
  | .ALAP_STATEMENT _ => true
  | .PROGRAM_OR left_command right_command =>
      neverFails left_command && neverFails right_command
  | .BREAK_STATEMENT _ => true
  | .SKIP_STATEMENT => true
  | .FAIL_STATEMENT => false

def neverFailsList : List GPCommand → Bool
  | [] => true
  | c :: cs => neverFails c && neverFailsList cs

end

/- `singleRule` from `genProgram.c`: true if the command amounts to a single
rule call or something simpler.  `singleRuleSeq` is the sequence case: skip
leading null commands; if nothing remains the answer is true; if more than
one command remains the answer is false; otherwise recurse on the remaining
command. -/
mutual

def singleRule : GPCommand → Bool
  | .COMMAND_SEQUENCE commands => singleRuleSeq commands
  | .RULE_CALL _ => true
  | .RULE_SET_CALL _ => true
  | .PROCEDURE_CALL commands => singleRule commands
  | .IF_STATEMENT _ _ _ => false
  | .TRY_STATEMENT _ _ _ => false
  | .ALAP_STATEMENT _ => false
  | .PROGRAM_OR left_command right_command =>
      singleRule left_command && singleRule right_command
  | .SKIP_STATEMENT => true
  | .FAIL_STATEMENT => true
  | .BREAK_STATEMENT _ => true

def singleRuleSeq : List GPCommand → Bool
  | [] => true
  | c :: cs =>
      if nullCommand c then singleRuleSeq cs
      else if cs.isEmpty then singleRule c
      else false

end

/- ================= Failure and rule-call emission ================= -/

/-- `generateFailureCode` from `genProgram.c`: context-dependent failure
response.  `rule_name = none` models the `NULL` argument used for the `fail`
statement. -/
def generateFailureCode (graph_copying : Bool) (rule_name : Option String)
    (data : CommandData) (st : GenState) : GenState :=
  let st :=
    if data.context = ContextType.MAIN_BODY then
      let st :=
        match rule_name with
        | some n =>
            emit st data.indent
              ("fprintf(output_file, \"No output graph: rule " ++ n ++ " not applicable.\\n\");\n")
        | none =>
            emit st data.indent
              "fprintf(output_file, \"No output graph: Fail statement invoked\\n\");\n"
      let st := emit st data.indent "printf(\"Output information saved to file gp2.output\\n\");\n"
      let st := emit st data.indent "garbageCollect();\n"
      let st := emit st data.indent "fclose(output_file);\n"
      emit st data.indent "return 0;\n"
    else emit st data.indent "success = false;\n"
  let st :=
    if data.context = ContextType.IF_BODY ∨ data.context = ContextType.TRY_BODY then
      emit st data.indent "break;\n"
    else st
  if data.context = ContextType.LOOP_BODY then
    if data.restore_point ≥ 0 then
      if graph_copying then
        emit st data.indent ("host = popGraphs(" ++ toString data.restore_point ++ ");\n")
      else
        emit st data.indent
          ("undoChanges(host, restore_point" ++ toString data.restore_point ++ ");\n")
    else st
  else st

/-- `generateRuleCall` from `genProgram.c`. -/
def generateRuleCall (graph_copying : Bool) (rule_name : String)
    (empty_lhs predicate last_rule : Bool) (data : CommandData) (st : GenState) : GenState :=
  if empty_lhs then
    if predicate then st
    else
      let st :=
        if data.restore_point ≥ 0 ∧ ¬graph_copying then
          emit st data.indent ("apply" ++ rule_name ++ "(true);\n")
        else emit st data.indent ("apply" ++ rule_name ++ "(false);\n")
      emit st data.indent "success = true;\n\n"
  else
    let st := emit st data.indent ("if(match" ++ rule_name ++ "(M_" ++ rule_name ++ "))\n")
    let st := emit st data.indent "\x7b\n"
    let st :=
      if ¬predicate then
        -- It is incorrect to apply the rule when the context is IF_BODY and
        -- there is no graph recording (restore_point < 0).
        if data.context ≠ ContextType.IF_BODY ∨ data.restore_point ≥ 0 then
          if data.record_changes ∧ ¬graph_copying then
            emit st (data.indent + 3) ("apply" ++ rule_name ++ "(M_" ++ rule_name ++ ", true);\n")
          else
            emit st (data.indent + 3) ("apply" ++ rule_name ++ "(M_" ++ rule_name ++ ", false);\n")
        else emit st (data.indent + 3) ("initialiseMorphism(M_" ++ rule_name ++ ", host);\n")
      else st
    let st := emit st (data.indent + 3) "success = true;\n"
    let st := if ¬last_rule then emit st (data.indent + 3) "break;\n" else st
    let st := emit st data.indent "\x7d\n"
    if last_rule then
      let st := emit st data.indent "else\n"
      let st := emit st data.indent "\x7b\n"
      let new_data := { data with indent := data.indent + 3 }
      let st := generateFailureCode graph_copying (some rule_name) new_data st
      emit st data.indent "\x7d\n"
    else st

/-- The `while` loop over the rules of a `RULE_SET_CALL` in
`generateProgramCode`: each rule is emitted with `last_rule` true exactly for
the final list entry. -/
def generateRuleSetCalls (graph_copying : Bool) : List GPRuleRef → CommandData → GenState → GenState
  | [], _, st => st
  | r :: rest, data, st =>
      let st := generateRuleCall graph_copying r.rule_name r.empty_lhs r.is_predicate
                  rest.isEmpty data st
      generateRuleSetCalls graph_copying rest data st

/- ================= The main generation pass ================= -/

/- `generateProgramCode` from `genProgram.c`.  The bodies of the two helper
functions that recurse back into `generateProgramCode` --
`generateBranchStatement` (for `IF_STATEMENT`/`TRY_STATEMENT`) and
`generateLoopStatement` (for `ALAP_STATEMENT`) -- are inlined at their unique
call sites so that the recursion is structural; comments mark the inlined
regions.  `generateCommandSequence` is the `while` loop of the
`COMMAND_SEQUENCE` case, which inserts `if(!success) break;` between elements
when the context is `LOOP_BODY`. -/
mutual

def generateProgramCode (graph_copying : Bool) (command : GPCommand)
    (data : CommandData) (st : GenState) : GenResult :=
  match command with
  | .COMMAND_SEQUENCE commands => generateCommandSequence graph_copying commands data st
  | .RULE_CALL rule =>
      let st := emit st data.indent "/* Rule Call */\n"
      .ok (generateRuleCall graph_copying rule.rule_name rule.empty_lhs rule.is_predicate
            true data st)
  | .RULE_SET_CALL rule_set =>
      let st := emit st data.indent "/* Rule Set Call */\n"
      let st := emit st data.indent "do\n"
      let st := emit st data.indent "\x7b\n"
      let new_data := { data with indent := data.indent + 3 }
      let st := generateRuleSetCalls graph_copying rule_set new_data st
      .ok (emit st data.indent "\x7d while(false);\n")
  | .PROCEDURE_CALL commands => generateProgramCode graph_copying commands data st
  | .IF_STATEMENT condition then_command else_command
  | .TRY_STATEMENT condition then_command else_command =>
      -- generateBranchStatement, inlined.
      let condition_data :=
        { data with
            context := match command with
                       | .IF_STATEMENT _ _ _ => ContextType.IF_BODY
                       | _ => ContextType.TRY_BODY,
            indent := data.indent + 3 }
      -- Restore-point suppression analysis and allocation.
      let alloc : CommandData × GenState :=
        if condition_data.context = ContextType.IF_BODY then
          if singleRule condition then ({ condition_data with restore_point := -1 }, st)
          else
            let a := allocRestorePoint st
            ({ condition_data with record_changes := true, restore_point := a.1 }, a.2)
        else
          let null_condition := nullCommand condition
          let simple_try := singleRule condition && nullCommand then_command
                              && nullCommand else_command
          if null_condition || simple_try then
            ({ condition_data with restore_point := -1 }, st)
          else
            let a := allocRestorePoint st
            ({ condition_data with record_changes := true, restore_point := a.1 }, a.2)
      let condition_data := alloc.1
      let st := alloc.2
      let st :=
        if condition_data.context = ContextType.IF_BODY then
          emit st data.indent "/* If Statement */\n"
        else emit st data.indent "/* Try Statement */\n"
      let st := emit st data.indent "/* Condition */\n"
      let st :=
        if condition_data.restore_point ≥ 0 then
          if graph_copying then emit st data.indent "copyGraph(host);\n"
          else
            emit st data.indent
              ("int restore_point" ++ toString condition_data.restore_point ++
               " = graph_change_stack == NULL ? 0 : topOfGraphChangeStack();\n")
        else st
      let st := emit st data.indent "do\n"
      let st := emit st data.indent "\x7b\n"
      genBind (generateProgramCode graph_copying condition condition_data st) fun st =>
      let st := emit st data.indent "\x7d while(false);\n\n"
      let st :=
        if condition_data.context = ContextType.IF_BODY then
          if condition_data.restore_point ≥ 0 then
            if graph_copying then
              emit st data.indent
                ("host = popGraphs(" ++ toString condition_data.restore_point ++ ");\n")
            else
              emit st data.indent
                ("undoChanges(host, restore_point" ++
                 toString condition_data.restore_point ++ ");\n")
          else st
        else st
      let new_data := { data with indent := data.indent + 3 }
      let st := emit st data.indent "/* Then Branch */\n"
      let st := emit st data.indent "if(success)\n"
      let st := emit st data.indent "\x7b\n"
      let st :=
        if condition_data.context = ContextType.TRY_BODY ∧ condition_data.restore_point ≥ 0 then
          emit st new_data.indent
            ("discardChanges(restore_point" ++ toString condition_data.restore_point ++ ");\n")
        else st
      genBind (generateProgramCode graph_copying then_command new_data st) fun st =>
      let st := emit st data.indent "\x7d\n"
      let st := emit st data.indent "/* Else Branch */\n"
      let st := emit st data.indent "else\n"
      let st := emit st data.indent "\x7b\n"
      let st :=
        if condition_data.context = ContextType.TRY_BODY then
          if condition_data.restore_point ≥ 0 then
            if graph_copying then
              emit st new_data.indent
                ("host = popGraphs(" ++ toString condition_data.restore_point ++ ");\n")
            else
              emit st new_data.indent
                ("undoChanges(host, restore_point" ++
                 toString condition_data.restore_point ++ ");\n")
          else st
        else st
      let st := emit st new_data.indent "success = true;\n"
      genBind (generateProgramCode graph_copying else_command new_data st) fun st =>
      let st := emit st data.indent "\x7d\n"
      if data.context = ContextType.IF_BODY ∨ data.context = ContextType.TRY_BODY then
        .ok (emit st data.indent "break;\n")
      else .ok st
  | .ALAP_STATEMENT loop_body =>
      -- generateLoopStatement, inlined.
      if neverFails loop_body then .error ("Error: Nontermination in loop.\n", st)
      else
      -- (The `nullCommand` warning goes to stderr, not to the output file.)
      let loop_data :=
        { data with
            context := ContextType.LOOP_BODY,
            loop_depth := data.loop_depth + 1,
            indent := data.indent + 3 }
      let alloc : CommandData × GenState :=
        if singleRule loop_body then ({ loop_data with restore_point := -1 }, st)
        else
          let a := allocRestorePoint st
          ({ loop_data with record_changes := true, restore_point := a.1 }, a.2)
      let loop_data := alloc.1
      let st := alloc.2
      let st := emit st data.indent "/* Loop Statement */\n"
      let st :=
        if loop_data.restore_point ≥ 0 then
          if graph_copying then emit st data.indent "copyGraph(host);\n"
          else
            emit st data.indent
              ("int restore_point" ++ toString loop_data.restore_point ++
               " = graph_change_stack == NULL ? 0 : topOfGraphChangeStack();\n")
        else st
      let st := emit st data.indent "while(success)\n"
      let st := emit st data.indent "\x7b\n"
      genBind (generateProgramCode graph_copying loop_body loop_data st) fun st =>
      let st :=
        if loop_data.restore_point ≥ 0 then
          if loop_data.loop_depth > 1 then
            let st := emit st (data.indent + 3)
                        "/* Update restore point for next iteration of inner loop. */\n"
            emit st (data.indent + 3)
              ("if(success) restore_point" ++ toString loop_data.restore_point ++
               " = topOfGraphChangeStack();\n")
          else
            let st := emit st (data.indent + 3)
                        "/* Graph changes from loop body may not have been used.\n"
            let st := emit st (data.indent + 3)
                        "   Discard them so that future graph roll backs are uncorrupted. */\n"
            if graph_copying then
              let st := emit st (data.indent + 3) "if(success)\n"
              let st := emit st (data.indent + 3) "\x7b\n"
              let st := emit st (data.indent + 6)
                          ("Graph *copy = popGraphs(" ++ toString loop_data.restore_point ++ ");\n")
              let st := emit st (data.indent + 6) "freeGraph(copy);\n"
              emit st (data.indent + 3) "\x7d\n"
            else
              emit st (data.indent + 3)
                ("if(success) discardChanges(restore_point" ++
                 toString loop_data.restore_point ++ ");\n")
        else st
      let st := emit st data.indent "\x7d\n"
      .ok (emit st data.indent "success = true;\n")
  | .PROGRAM_OR left_command right_command =>
      let new_data := { data with indent := data.indent + 3 }
      let st := emit st data.indent "/* OR Statement */\n"
      let st := emit st data.indent "int random = rand();\n"
      let st := emit st data.indent "if((random % 2) == 0)\n"
      let st := emit st data.indent "\x7b\n"
      genBind (generateProgramCode graph_copying left_command new_data st) fun st =>
      let st := emit st data.indent "\x7d\n"
      let st := emit st data.indent "else\n"
      let st := emit st data.indent "\x7b\n"
      genBind (generateProgramCode graph_copying right_command new_data st) fun st =>
      let st := emit st data.indent "\x7d\n"
      if data.context = ContextType.IF_BODY ∨ data.context = ContextType.TRY_BODY then
        .ok (emit st data.indent "break;\n")
      else .ok st
  | .SKIP_STATEMENT =>
      let st := emit st data.indent "/* Skip Statement */\n"
      .ok (emit st data.indent "success = true;\n")
  | .FAIL_STATEMENT =>
      let st := emit st data.indent "/* Fail Statement */\n"
      .ok (generateFailureCode graph_copying none data st)
  | .BREAK_STATEMENT inner_loop =>
      let st := emit st data.indent "/* Break Statement */\n"
      let st :=
        if data.restore_point ≥ 0 then
          if inner_loop then
            let st := emit st data.indent
                        "/* Update restore point for next iteration of inner loop. */\n"
            emit st data.indent
              ("if(success) restore_point" ++ toString data.restore_point ++
               " = topOfGraphChangeStack();\n")
          else
            let st := emit st data.indent "/* Graph changes from loop body not required.\n"
            let st := emit st data.indent
                        "   Discard them so that future graph roll backs are uncorrupted. */\n"
            if graph_copying then
              let st := emit st data.indent
                          ("Graph *copy = popGraphs(" ++ toString data.restore_point ++ ");\n")
              emit st data.indent "freeGraph(copy);\n"
            else
              emit st data.indent
                ("discardChanges(restore_point" ++ toString data.restore_point ++ ");\n")
        else st
      .ok (emit st data.indent "break;\n")

def generateCommandSequence (graph_copying : Bool) (commands : List GPCommand)
    (data : CommandData) (st : GenState) : GenResult :=
  match commands with
  | [] => .ok st
  | c :: rest =>
      genBind (generateProgramCode graph_copying c data st) fun st =>
      let st :=
        if data.context = ContextType.LOOP_BODY ∧ rest.isEmpty = false then
          emit st data.indent "if(!success) break;\n\n"
        else st
      generateCommandSequence graph_copying rest data st

end

/- ================= Declarations and the runtime shell ================= -/

/-- A GP 2 declaration (`GPDeclaration` in `ast.h`), restricted to the fields
`generateRuntimeMain` / `generateMorphismCode` read: the main program, a
procedure's local declarations, and a rule's name and `makeMorphism`
arguments (`left_nodes`, `left_edges`, `variable_count`). -/
inductive GPDeclaration where
  | MAIN_DECLARATION (main_program : GPCommand)
  | PROCEDURE_DECLARATION (local_decls : List GPDeclaration)
  | RULE_DECLARATION (name : String) (left_nodes left_edges variable_count : Int)
deriving Repr

/- `generateMorphismCode` from `genProgram.c`: for each rule declaration emit
the morphism handling of the given `type` ('d' declarations, 'm' makeMorphism
calls, 'f' freeMorphism calls).  `morphismCodeList` is the `while` loop over
the declaration list and `morphismCodeDecl` its body.  A procedure
declaration recurses into its local declarations with `first_call = false`;
that nested call's prologue and epilogue are constant-folded at the call site
(for `first_call = false` the prologue is empty and the epilogue is the blank
line for types 'd'/'m'), so that the recursion is structural. -/
mutual

def morphismCodeList : List GPDeclaration → Char → List OutLine
  | [], _ => []
  | d :: rest, type => morphismCodeDecl d type ++ morphismCodeList rest type

def morphismCodeDecl : GPDeclaration → Char → List OutLine
  | .MAIN_DECLARATION _, _ => []
  | .PROCEDURE_DECLARATION local_decls, type =>
      match local_decls with
      | [] => []
      | _ :: _ =>
          morphismCodeList local_decls type
          ++ (if type = 'd' ∨ type = 'm' then [(0, "\n")] else [])
  | .RULE_DECLARATION name left_nodes left_edges variable_count, type =>
      (if type = 'd' then
         [(0, "#include \"" ++ name ++ ".h\"\n"), (0, "Morphism *M_" ++ name ++ " = NULL;\n")]
       else [])
      ++ (if type = 'm' then
            [(3, "M_" ++ name ++ " = makeMorphism(" ++ toString left_nodes ++ ", " ++
                 toString left_edges ++ ", " ++ toString variable_count ++ ");\n")]
          else [])
      ++ (if type = 'f' then [(3, "freeMorphism(M_" ++ name ++ ");\n")] else [])

end

/-- The outermost (`first_call = true`) invocation of `generateMorphismCode`:
prologue (the `freeMorphisms` opening for type 'f'), the loop over the
declarations, and epilogue (a blank line for 'd'/'m', the closing brace for
'f'). -/
def generateMorphismCode (declarations : List GPDeclaration) (type : Char) : List OutLine :=
  (if type = 'f' then [(0, "static void freeMorphisms(void)\n\x7b\n")] else [])
  ++ morphismCodeList declarations type
  ++ (if type = 'd' ∨ type = 'm' then [(0, "\n")] else [(0, "\x7d\n\n")])

/-- The `#include` block at the top of the emitted file. -/
def runtimeIncludes : List OutLine :=
  [(0, "#include <time.h>\n"),
   (0, "#include \"common.h\"\n"),
   (0, "#include \"debug.h\"\n"),
   (0, "#include \"graph.h\"\n"),
   (0, "#include \"graphStacks.h\"\n"),
   (0, "#include \"parser.h\"\n"),
   (0, "#include \"morphism.h\"\n\n")]

/-- The emitted `garbageCollect` function (`LIST_HASHING` is a build-time
toggle of the compiler; `graph_copying` selects which stack to free). -/
def garbageCollectLines (graph_copying list_hashing : Bool) : List OutLine :=
  [(0, "static void garbageCollect(void)\n"), (0, "\x7b\n"), (0, "   freeGraph(host);\n")]
  ++ (if list_hashing then [(0, "   freeHostListStore();\n")] else [])
  ++ [(0, "   freeMorphisms();\n")]
  ++ (if graph_copying then [(0, "   freeGraphStack();\n")] else [(0, "   freeGraphChangeStack();\n")])
  ++ [(0, "   closeLogFile();\n"), (0, "\x7d\n\n")]

/-- The emitted global host-graph variables. -/
def hostDeclLines : List OutLine :=
  [(0, "Graph *host = NULL;\n"), (0, "int *node_map = NULL;\n\n")]

/-- The emitted `buildHostGraph` function (host graph allocated with node and
edge capacity 128). -/
def buildHostGraphLines : List OutLine :=
  [(0, "static Graph *buildHostGraph(char *host_file)\n"),
   (0, "\x7b\n"),
   (3, "yyin = fopen(host_file, \"r\");\n"),
   (3, "if(yyin == NULL)\n"),
   (3, "\x7b\n"),
   (6, "perror(host_file);\n"),
   (6, "return NULL;\n"),
   (3, "\x7d\n\n"),
   (3, "host = newGraph(128, 128);\n"),
   (3, "node_map = calloc(128, sizeof(int));\n"),
   (3, "if(node_map == NULL)\n"),
   (3, "\x7b\n"),
   (6, "freeGraph(host);\n"),
   (6, "return NULL;\n"),
   (3, "\x7d\n"),
   (3, "/* The parser populates the host graph using node_map to add edges with\n"),
   (3, " * the correct source and target indices. */\n"),
   (3, "int result = yyparse();\n"),
   (3, "free(node_map);\n"),
   (3, "fclose(yyin);\n"),
   (3, "if(result == 0) return host;\n"),
   (3, "else\n"),
   (3, "\x7b\n"),
   (6, "freeGraph(host);\n"),
   (6, "return NULL;\n"),
   (3, "\x7d\n"),
   (0, "\x7d\n\n")]

/-- The emitted `success` flag declaration. -/
def successDeclLines : List OutLine :=
  [(0, "bool success = true;\n\n")]

/-- The opening of the emitted `main` function. -/
def mainOpenLines : List OutLine :=
  [(0, "int main(int argc, char **argv)\n"),
   (0, "\x7b\n"),
   (3, "srand(time(NULL));\n"),
   (3, "openLogFile(\"gp2.log\");\n\n")]

/-- The emitted check for the missing `<host-file>` argument: prints to
standard error and returns 0. -/
def argcCheckLines : List OutLine :=
  [(3, "if(argc != 2)\n"),
   (3, "\x7b\n"),
   (6, "fprintf(stderr, \"Error: missing <host-file> argument.\\n\");\n"),
   (6, "return 0;\n"),
   (3, "\x7d\n\n")]

/-- The emitted call to `buildHostGraph`. -/
def buildHostCallLines : List OutLine :=
  [(3, "host = buildHostGraph(argv[1]);\n")]

/-- The emitted check for a host-graph parse failure: prints to standard
error and returns 0. -/
def hostParseFailLines : List OutLine :=
  [(3, "if(host == NULL)\n"),
   (3, "\x7b\n"),
   (6, "fprintf(stderr, \"Error parsing host graph file.\\n\");\n"),
   (6, "return 0;\n"),
   (3, "\x7d\n")]

/-- The emitted opening of the output file. -/
def outputFileLines : List OutLine :=
  [(3, "FILE *output_file = fopen(\"gp2.output\", \"w\");\n"),
   (3, "if(output_file == NULL)\n"),
   (3, "\x7b\n"),
   (6, "perror(\"gp2.output\");\n"),
   (6, "exit(1);\n"),
   (3, "\x7d\n")]

/-- The closing lines of the emitted `main`: print the graph, collect
garbage and return 0. -/
def runtimeTailLines : List OutLine :=
  [(0, "   printGraph(host, output_file);\n"),
   (0, "   printf(\"Output graph saved to file gp2.output\\n\");\n"),
   (0, "   garbageCollect();\n"),
   (0, "   fclose(output_file);\n"),
   (0, "   return 0;\n"),
   (0, "\x7d\n\n")]

/-- The `CommandData` built for the main declaration's command sequence:
`{MAIN_BODY, 0, false, -1, 3}`. -/
def initialData : CommandData :=
  { context := ContextType.MAIN_BODY, loop_depth := 0, record_changes := false,
    restore_point := -1, indent := 3 }

/-- The `while` loop of `generateRuntimeMain` over the declaration list: every
`MAIN_DECLARATION` generates its command sequence with `initialData`. -/
def generateMainDecls (graph_copying : Bool) : List GPDeclaration → GenState → GenResult
  | [], st => .ok st
  | d :: rest, st =>
      match d with
      | .MAIN_DECLARATION main_program =>
          genBind (generateProgramCode graph_copying main_program initialData st) fun st =>
          generateMainDecls graph_copying rest st
      | _ => generateMainDecls graph_copying rest st

/-- `generateRuntimeMain` from `genProgram.c`: emits the whole `main.c`.  The
incoming `st` carries the persistent global `restore_point_count` (the file
contents start from `st.out`, which a caller modelling a fresh file passes as
`[]`). -/
def generateRuntimeMain (graph_copying list_hashing : Bool)
    (declarations : List GPDeclaration) (st : GenState) : GenResult :=
  let st := emitAll st runtimeIncludes
  let st := emitAll st (generateMorphismCode declarations 'd')
  let st := emitAll st (generateMorphismCode declarations 'f')
  let st := emitAll st (garbageCollectLines graph_copying list_hashing)
  let st := emitAll st hostDeclLines
  let st := emitAll st buildHostGraphLines
  let st := emitAll st successDeclLines
  let st := emitAll st mainOpenLines
  let st := emitAll st argcCheckLines
  let st := emitAll st buildHostCallLines
  let st := emitAll st hostParseFailLines
  let st := emitAll st outputFileLines
  let st := emitAll st (generateMorphismCode declarations 'm')
  genBind (generateMainDecls graph_copying declarations st) fun st =>
  .ok (emitAll st runtimeTailLines)

/- ================= CommandData propagation mirror ================= -/

/-- The `condition_data` computation of `generateBranchStatement` (restore
point suppression and allocation), on the restore-point counter alone:
returns the condition's `CommandData`, whether a restore point was
allocated, and the new counter value. -/
def branchConditionData (is_if : Bool) (condition then_command else_command : GPCommand)
    (d : CommandData) (count : Nat) : CommandData × Bool × Nat :=
  let condition_data :=
    { d with context := if is_if then ContextType.IF_BODY else ContextType.TRY_BODY,
             indent := d.indent + 3 }
  if condition_data.context = ContextType.IF_BODY then
    if singleRule condition then ({ condition_data with restore_point := -1 }, false, count)
    else ({ condition_data with record_changes := true, restore_point := (count : Int) },
          true, count + 1)
  else
    if nullCommand condition
       || (singleRule condition && nullCommand then_command && nullCommand else_command) then
      ({ condition_data with restore_point := -1 }, false, count)
    else ({ condition_data with record_changes := true, restore_point := (count : Int) },
          true, count + 1)

/-- The `loop_data` computation of `generateLoopStatement`, on the
restore-point counter alone: returns the loop body's `CommandData`, whether a
restore point was allocated, and the new counter value. -/
def loopBodyData (loop_body : GPCommand) (d : CommandData) (count : Nat) :
    CommandData × Bool × Nat :=
  let loop_data :=
    { d with context := ContextType.LOOP_BODY, loop_depth := d.loop_depth + 1,
             indent := d.indent + 3 }
  if singleRule loop_body then ({ loop_data with restore_point := -1 }, false, count)
  else ({ loop_data with record_changes := true, restore_point := (count : Int) },
        true, count + 1)

/- `commandDataEntries c d live count` mirrors, guard for guard, the
`CommandData` computations of `generateProgramCode` (with
`generateBranchStatement` and `generateLoopStatement` inlined as above): it
returns one entry per recursive `generateProgramCode` invocation, pairing the
`CommandData` that invocation receives with the ground-truth flag `live`,
and threads the restore-point counter.  `live` states whether some enclosing
branch condition or loop body allocated a restore frame whose lifetime
encloses that subcommand: a branch's frame spans exactly its condition (for
an if statement it is released right after the condition, for a try statement
at entry to the then/else branches), and a loop's frame spans its body.
Entries are collected for all three subcommands of a branch even when an
abort inside one of them would stop emission of the later ones; this
over-approximation only adds entries. -/
mutual

def commandDataEntries (c : GPCommand) (d : CommandData) (live : Bool) (count : Nat) :
    List (CommandData × Bool) × Nat :=
  match c with
  | .COMMAND_SEQUENCE commands =>
      let r := commandDataEntriesList commands d live count
      ((d, live) :: r.1, r.2)
  | .RULE_CALL _ => ([(d, live)], count)
  | .RULE_SET_CALL _ => ([(d, live)], count)
  | .SKIP_STATEMENT => ([(d, live)], count)
  | .FAIL_STATEMENT => ([(d, live)], count)
  | .BREAK_STATEMENT _ => ([(d, live)], count)
  | .PROCEDURE_CALL commands =>
      let r := commandDataEntries commands d live count
      ((d, live) :: r.1, r.2)
  | .IF_STATEMENT condition then_command else_command
  | .TRY_STATEMENT condition then_command else_command =>
      let is_if : Bool := match c with | .IF_STATEMENT _ _ _ => true | _ => false
      let alloc := branchConditionData is_if condition then_command else_command d count
      let rc := commandDataEntries condition alloc.1 (live || alloc.2.1) alloc.2.2
      let new_data := { d with indent := d.indent + 3 }
      let rt := commandDataEntries then_command new_data live rc.2
      let re := commandDataEntries else_command new_data live rt.2
      ((d, live) :: (rc.1 ++ rt.1 ++ re.1), re.2)
  | .ALAP_STATEMENT loop_body =>
      if neverFails loop_body then ([(d, live)], count)
      else
        let alloc := loopBodyData loop_body d count
        let rb := commandDataEntries loop_body alloc.1 (live || alloc.2.1) alloc.2.2
        ((d, live) :: rb.1, rb.2)
  | .PROGRAM_OR left_command right_command =>
      let new_data := { d with indent := d.indent + 3 }
      let rl := commandDataEntries left_command new_data live count
      let rr := commandDataEntries right_command new_data live rl.2
      ((d, live) :: (rl.1 ++ rr.1), rr.2)

def commandDataEntriesList (cs : List GPCommand) (d : CommandData) (live : Bool) (count : Nat) :
    List (CommandData × Bool) × Nat :=
  match cs with
  | [] => ([], count)
  | c :: rest =>
      let r1 := commandDataEntries c d live count
      let r2 := commandDataEntriesList rest d live r1.2
      (r1.1 ++ r2.1, r2.2)

end

/- ================= State-evolution invariant ================= -/

/-- How the generator state may change across any generation step: the output
only grows, the restore-point counter only grows, and the ghost allocation
log is extended by a strictly increasing run of ids drawn from the counter
interval the step spans. -/
def StateEvolution (st st' : GenState) : Prop :=
  (∃ ls, st'.out = st.out ++ ls) ∧
  st.restore_point_count ≤ st'.restore_point_count ∧
  ∃ as, st'.allocs = st.allocs ++ as ∧ List.Chain' (· < ·) as ∧
    ∀ a ∈ as, st.restore_point_count ≤ a ∧ a < st'.restore_point_count

/-- The state at which a generation step left off (its successor state on
success, the abort state on error). -/
@[reducible] def resState : GenResult → GenState
  | .ok st => st
  | .error e => e.2

/-- Evolution towards the resulting state of a generation step. -/
@[reducible] def ResultEvolution (st : GenState) (r : GenResult) : Prop :=
  StateEvolution st (resState r)

/- ================= Output characterisations ================= -/

/-- The output block `generateFailureCode` appends, as a function of the
strategy flag, the failing rule (if any) and the `CommandData`. -/
def failureCodeLines (graph_copying : Bool) (rule_name : Option String)
    (data : CommandData) : List OutLine :=
  (if data.context = ContextType.MAIN_BODY then
     [(data.indent,
       match rule_name with
       | some n =>
           "fprintf(output_file, \"No output graph: rule " ++ n ++ " not applicable.\\n\");\n"
       | none => "fprintf(output_file, \"No output graph: Fail statement invoked\\n\");\n"),
      (data.indent, "printf(\"Output information saved to file gp2.output\\n\");\n"),
      (data.indent, "garbageCollect();\n"),
      (data.indent, "fclose(output_file);\n"),
      (data.indent, "return 0;\n")]
   else [(data.indent, "success = false;\n")])
  ++ (if data.context = ContextType.IF_BODY ∨ data.context = ContextType.TRY_BODY then
        [(data.indent, "break;\n")]
      else [])
  ++ (if data.context = ContextType.LOOP_BODY then
        if data.restore_point ≥ 0 then
          [(data.indent,
            if graph_copying then "host = popGraphs(" ++ toString data.restore_point ++ ");\n"
            else "undoChanges(host, restore_point" ++ toString data.restore_point ++ ");\n")]
        else []
      else [])


/- ================= Concrete inputs used by the claim theorems ================= -/

/-- A non-predicate rule reference with a non-empty LHS. -/
def ruleR1 : GPRuleRef := ⟨"r1", false, false⟩

/-- The generator state at process start: counter 0, empty file, empty log. -/
def initialGenState : GenState := ⟨0, [], []⟩

/-- `try (r1; r1) then skip else skip`: a try statement whose condition is not
suppressed, so a restore point is allocated. -/
def tryCopyProg : GPCommand :=
  .TRY_STATEMENT (.COMMAND_SEQUENCE [.RULE_CALL ruleR1, .RULE_CALL ruleR1])
    .SKIP_STATEMENT .SKIP_STATEMENT

/-- `if (if r1 then skip else skip) then skip else skip`: the outer condition
allocates a frame, the inner condition is a single rule. -/
def nestedIfProg : GPCommand :=
  .IF_STATEMENT (.IF_STATEMENT (.RULE_CALL ruleR1) .SKIP_STATEMENT .SKIP_STATEMENT)
    .SKIP_STATEMENT .SKIP_STATEMENT

/-- `if (r1; r1) then skip else skip`: allocates exactly one restore point. -/
def ifAllocProg : GPCommand :=
  .IF_STATEMENT (.COMMAND_SEQUENCE [.RULE_CALL ruleR1, .RULE_CALL ruleR1])
    .SKIP_STATEMENT .SKIP_STATEMENT

/-- A declaration list whose main program allocates one restore point. -/
def ifAllocDecls : List GPDeclaration :=
  [.MAIN_DECLARATION ifAllocProg, .RULE_DECLARATION "r1" 1 0 0]

/-- A declaration list whose main program allocates no restore point. -/
def noAllocDecls : List GPDeclaration :=
  [.MAIN_DECLARATION (.RULE_CALL ruleR1), .RULE_DECLARATION "r1" 1 0 0]

/-- The initial state of a second `generateRuntimeMain` invocation in the same
compiler process: a fresh output file, but the global `restore_point_count`
(and its ghost log) persisting from the previous invocation's result. -/
def carryGlobals (r : GenResult) : GenState :=
  match r with
  | .ok st => { restore_point_count := st.restore_point_count, out := [], allocs := st.allocs }
  | .error e => { restore_point_count := e.2.restore_point_count, out := [], allocs := e.2.allocs }


/- ================= State-evolution lemmas ================= -/


theorem StateEvolution.refl (st : GenState) : StateEvolution st st :=
  ⟨⟨[], by simp⟩, le_refl _, ⟨[], by simp, List.chain'_nil, fun a ha => absurd ha (List.not_mem_nil a)⟩⟩

theorem StateEvolution.trans {s1 s2 s3 : GenState}
    (h12 : StateEvolution s1 s2) (h23 : StateEvolution s2 s3) : StateEvolution s1 s3 := by
  obtain ⟨⟨l1, hl1⟩, hc1, as1, ha1, ch1, hb1⟩ := h12
  obtain ⟨⟨l2, hl2⟩, hc2, as2, ha2, ch2, hb2⟩ := h23
  refine ⟨⟨l1 ++ l2, by rw [hl2, hl1, List.append_assoc]⟩, le_trans hc1 hc2,
    as1 ++ as2, by rw [ha2, ha1, List.append_assoc], ?_, ?_⟩
  · rw [List.chain'_append]
    refine ⟨ch1, ch2, fun x hx y hy => ?_⟩
    exact lt_of_lt_of_le (hb1 x (List.mem_of_mem_getLast? hx)).2
      (hb2 y (List.mem_of_mem_head? hy)).1
  · intro a ha
    rcases List.mem_append.mp ha with h | h
    · exact ⟨(hb1 a h).1, lt_of_lt_of_le (hb1 a h).2 hc2⟩
    · exact ⟨le_trans hc1 (hb2 a h).1, (hb2 a h).2⟩

theorem seq_emit {st st' : GenState} (h : StateEvolution st st') (i : Nat) (s : String) :
    StateEvolution st (emit st' i s) :=
  h.trans ⟨⟨[(i, s)], rfl⟩, le_refl _,
    ⟨[], by simp [emit], List.chain'_nil, fun a ha => absurd ha (List.not_mem_nil a)⟩⟩

theorem seq_emitAll {st st' : GenState} (h : StateEvolution st st') (ls : List OutLine) :
    StateEvolution st (emitAll st' ls) :=
  h.trans ⟨⟨ls, rfl⟩, le_refl _,
    ⟨[], by simp [emitAll], List.chain'_nil, fun a ha => absurd ha (List.not_mem_nil a)⟩⟩

theorem seq_alloc {st st' : GenState} (h : StateEvolution st st') :
    StateEvolution st (allocRestorePoint st').2 :=
  h.trans ⟨⟨[], by simp [allocRestorePoint]⟩, Nat.le_succ _,
    ⟨[st'.restore_point_count], rfl, List.chain'_singleton _,
     fun a ha => by
       rw [List.mem_singleton] at ha
       subst ha
       exact ⟨le_refl _, by simp [allocRestorePoint]⟩⟩⟩

theorem seq_ite {st : GenState} {c : Prop} [Decidable c] {s1 s2 : GenState}
    (h1 : StateEvolution st s1) (h2 : StateEvolution st s2) :
    StateEvolution st (if c then s1 else s2) := by
  split
  · exact h1
  · exact h2

theorem seq_snd_ite {st : GenState} {c : Prop} [Decidable c] {p1 p2 : CommandData × GenState}
    (h1 : StateEvolution st p1.2) (h2 : StateEvolution st p2.2) :
    StateEvolution st (if c then p1 else p2).2 := by
  split
  · exact h1
  · exact h2


theorem ResultEvolution.lift {st st1 : GenState} {r : GenResult}
    (h : StateEvolution st st1) (hr : ResultEvolution st1 r) : ResultEvolution st r :=
  h.trans hr

theorem ResultEvolution.step {st : GenState} {r : GenResult} {f : GenState → GenResult}
    (hr : ResultEvolution st r) (hf : ∀ st2, ResultEvolution st2 (f st2)) :
    ResultEvolution st (genBind r f) := by
  cases r with
  | error e => exact hr
  | ok st2 => exact StateEvolution.trans hr (hf st2)

theorem resultEvolution_ite {st : GenState} {c : Prop} [Decidable c] {r1 r2 : GenResult}
    (h1 : ResultEvolution st r1) (h2 : ResultEvolution st r2) :
    ResultEvolution st (if c then r1 else r2) := by
  split
  · exact h1
  · exact h2

theorem generateFailureCode_evolution (graph_copying : Bool) (rule_name : Option String)
    (data : CommandData) (st : GenState) :
    StateEvolution st (generateFailureCode graph_copying rule_name data st) := by
  unfold generateFailureCode
  repeat' first
  | assumption
  | exact StateEvolution.refl _
  | apply seq_emit
  | apply seq_ite
  | split

theorem seq_failure {st st' : GenState} (h : StateEvolution st st') (graph_copying : Bool)
    (rule_name : Option String) (data : CommandData) :
    StateEvolution st (generateFailureCode graph_copying rule_name data st') :=
  h.trans (generateFailureCode_evolution graph_copying rule_name data st')

theorem generateRuleCall_evolution (graph_copying : Bool) (rule_name : String)
    (empty_lhs predicate last_rule : Bool) (data : CommandData) (st : GenState) :
    StateEvolution st (generateRuleCall graph_copying rule_name empty_lhs predicate last_rule data st) := by
  unfold generateRuleCall
  repeat' first
  | assumption
  | exact StateEvolution.refl _
  | apply seq_emit
  | apply seq_failure
  | apply seq_ite

theorem seq_ruleCall {st st' : GenState} (h : StateEvolution st st') (graph_copying : Bool)
    (rule_name : String) (empty_lhs predicate last_rule : Bool) (data : CommandData) :
    StateEvolution st (generateRuleCall graph_copying rule_name empty_lhs predicate last_rule data st') :=
  h.trans (generateRuleCall_evolution graph_copying rule_name empty_lhs predicate last_rule data st')

theorem generateRuleSetCalls_evolution (graph_copying : Bool) (rules : List GPRuleRef)
    (data : CommandData) (st : GenState) :
    StateEvolution st (generateRuleSetCalls graph_copying rules data st) := by
  induction rules generalizing st with
  | nil => exact StateEvolution.refl st
  | cons r rest ih =>
      exact (generateRuleCall_evolution graph_copying r.rule_name r.empty_lhs r.is_predicate
        rest.isEmpty data st).trans (ih _)

theorem seq_ruleSet {st st' : GenState} (h : StateEvolution st st') (graph_copying : Bool)
    (rules : List GPRuleRef) (data : CommandData) :
    StateEvolution st (generateRuleSetCalls graph_copying rules data st') :=
  h.trans (generateRuleSetCalls_evolution graph_copying rules data st')

mutual

theorem generateProgramCode_evolution (graph_copying : Bool) (command : GPCommand)
    (data : CommandData) (st : GenState) :
    ResultEvolution st (generateProgramCode graph_copying command data st) := by
  cases command with
  | COMMAND_SEQUENCE commands =>
      exact generateCommandSequence_evolution graph_copying commands data st
  | RULE_CALL rule =>
      simp only [generateProgramCode]
      repeat' first
      | exact StateEvolution.refl _
      | apply seq_emit
      | apply seq_ruleCall
  | RULE_SET_CALL rule_set =>
      simp only [generateProgramCode]
      repeat' first
      | exact StateEvolution.refl _
      | apply seq_emit
      | apply seq_ruleSet
  | PROCEDURE_CALL commands =>
      simp only [generateProgramCode]
      exact generateProgramCode_evolution graph_copying commands data st
  | IF_STATEMENT condition then_command else_command =>
      simp only [generateProgramCode]
      refine ResultEvolution.step
        (ResultEvolution.lift ?_ (generateProgramCode_evolution graph_copying condition _ _))
        (fun stc => ?_)
      · repeat' first
        | exact StateEvolution.refl _
        | apply seq_emit
        | apply seq_alloc
        | apply seq_snd_ite
        | apply seq_ite
      refine ResultEvolution.step
        (ResultEvolution.lift ?_ (generateProgramCode_evolution graph_copying then_command _ _))
        (fun stt => ?_)
      · repeat' first
        | exact StateEvolution.refl _
        | apply seq_emit
        | apply seq_ite
      refine ResultEvolution.step
        (ResultEvolution.lift ?_ (generateProgramCode_evolution graph_copying else_command _ _))
        (fun ste => ?_)
      · repeat' first
        | exact StateEvolution.refl _
        | apply seq_emit
        | apply seq_ite
      repeat' first
      | exact StateEvolution.refl _
      | apply seq_emit
      | apply seq_ite
      | apply resultEvolution_ite
  | TRY_STATEMENT condition then_command else_command =>
      simp only [generateProgramCode]
      refine ResultEvolution.step
        (ResultEvolution.lift ?_ (generateProgramCode_evolution graph_copying condition _ _))
        (fun stc => ?_)
      · repeat' first
        | exact StateEvolution.refl _
        | apply seq_emit
        | apply seq_alloc
        | apply seq_snd_ite
        | apply seq_ite
      refine ResultEvolution.step
        (ResultEvolution.lift ?_ (generateProgramCode_evolution graph_copying then_command _ _))
        (fun stt => ?_)
      · repeat' first
        | exact StateEvolution.refl _
        | apply seq_emit
        | apply seq_ite
      refine ResultEvolution.step
        (ResultEvolution.lift ?_ (generateProgramCode_evolution graph_copying else_command _ _))
        (fun ste => ?_)
      · repeat' first
        | exact StateEvolution.refl _
        | apply seq_emit
        | apply seq_ite
      repeat' first
      | exact StateEvolution.refl _
      | apply seq_emit
      | apply seq_ite
      | apply resultEvolution_ite
  | ALAP_STATEMENT loop_body =>
      simp only [generateProgramCode]
      refine resultEvolution_ite ?_ ?_
      · exact StateEvolution.refl st
      · refine ResultEvolution.step
          (ResultEvolution.lift ?_ (generateProgramCode_evolution graph_copying loop_body _ _))
          (fun stb => ?_)
        · repeat' first
          | exact StateEvolution.refl _
          | apply seq_emit
          | apply seq_alloc
          | apply seq_snd_ite
          | apply seq_ite
        repeat' first
        | exact StateEvolution.refl _
        | apply seq_emit
        | apply seq_ite
  | PROGRAM_OR left_command right_command =>
      simp only [generateProgramCode]
      refine ResultEvolution.step
        (ResultEvolution.lift ?_ (generateProgramCode_evolution graph_copying left_command _ _))
        (fun stl => ?_)
      · repeat' first
        | exact StateEvolution.refl _
        | apply seq_emit
      refine ResultEvolution.step
        (ResultEvolution.lift ?_ (generateProgramCode_evolution graph_copying right_command _ _))
        (fun str2 => ?_)
      · repeat' first
        | exact StateEvolution.refl _
        | apply seq_emit
      repeat' first
      | exact StateEvolution.refl _
      | apply seq_emit
      | apply resultEvolution_ite
  | SKIP_STATEMENT =>
      simp only [generateProgramCode]
      repeat' first
      | exact StateEvolution.refl _
      | apply seq_emit
  | FAIL_STATEMENT =>
      simp only [generateProgramCode]
      repeat' first
      | exact StateEvolution.refl _
      | apply seq_emit
      | apply seq_failure
  | BREAK_STATEMENT inner_loop =>
      simp only [generateProgramCode]
      repeat' first
      | exact StateEvolution.refl _
      | apply seq_emit
      | apply seq_ite

theorem generateCommandSequence_evolution (graph_copying : Bool) (commands : List GPCommand)
    (data : CommandData) (st : GenState) :
    ResultEvolution st (generateCommandSequence graph_copying commands data st) := by
  cases commands with
  | nil =>
      simp only [generateCommandSequence]
      exact StateEvolution.refl st
  | cons c rest =>
      simp only [generateCommandSequence]
      refine ResultEvolution.step
        (ResultEvolution.lift (StateEvolution.refl st) (generateProgramCode_evolution graph_copying c _ _))
        (fun st1 => ?_)
      refine ResultEvolution.lift ?_ (generateCommandSequence_evolution graph_copying rest _ _)
      repeat' first
      | exact StateEvolution.refl _
      | apply seq_emit
      | apply seq_ite

end

theorem generateMainDecls_evolution (graph_copying : Bool) (declarations : List GPDeclaration)
    (st : GenState) : ResultEvolution st (generateMainDecls graph_copying declarations st) := by
  induction declarations generalizing st with
  | nil => exact StateEvolution.refl st
  | cons d rest ih =>
      cases d with
      | MAIN_DECLARATION main_program =>
          simp only [generateMainDecls]
          exact ResultEvolution.step
            (generateProgramCode_evolution graph_copying main_program initialData st)
            (fun st1 => ih st1)
      | PROCEDURE_DECLARATION local_decls =>
          simp only [generateMainDecls]; exact ih st
      | RULE_DECLARATION name a b c =>
          simp only [generateMainDecls]; exact ih st

theorem generateRuntimeMain_evolution (graph_copying list_hashing : Bool)
    (declarations : List GPDeclaration) (st : GenState) :
    ResultEvolution st (generateRuntimeMain graph_copying list_hashing declarations st) := by
  unfold generateRuntimeMain
  refine ResultEvolution.step
    (ResultEvolution.lift ?_ (generateMainDecls_evolution graph_copying declarations _))
    (fun st1 => ?_)
  · repeat' first
    | apply seq_emitAll
    | exact StateEvolution.refl _
  · repeat' first
    | apply seq_emitAll
    | exact StateEvolution.refl _

theorem evolution_allocs_of_count_eq {st st' : GenState} (h : StateEvolution st st')
    (hc : st'.restore_point_count = st.restore_point_count) : st'.allocs = st.allocs := by
  obtain ⟨-, -, as, ha, -, hb⟩ := h
  cases as with
  | nil => simpa using ha
  | cons a t =>
      have := hb a (List.mem_cons_self a t)
      omega

/- ================= C3 soundness ================= -/

theorem branchConditionData_live (is_if : Bool)
    (condition then_command else_command : GPCommand) (d : CommandData) (count : Nat)
    (live : Bool) :
    0 ≤ (branchConditionData is_if condition then_command else_command d count).1.restore_point →
    (live || (branchConditionData is_if condition then_command else_command d count).2.1) = true := by
  unfold branchConditionData
  cases is_if
  all_goals repeat' split
  all_goals intro h
  all_goals simp_all

theorem loopBodyData_live (loop_body : GPCommand) (d : CommandData) (count : Nat)
    (live : Bool) :
    0 ≤ (loopBodyData loop_body d count).1.restore_point →
    (live || (loopBodyData loop_body d count).2.1) = true := by
  unfold loopBodyData
  split <;> intro h <;> simp_all

mutual

theorem commandDataEntries_sound (c : GPCommand) (d : CommandData) (live : Bool) (count : Nat)
    (hroot : 0 ≤ d.restore_point → live = true) :
    ∀ e ∈ (commandDataEntries c d live count).1, 0 ≤ e.1.restore_point → e.2 = true := by
  cases c with
  | COMMAND_SEQUENCE commands =>
      intro e he
      simp only [commandDataEntries, List.mem_cons] at he
      rcases he with h | h
      · subst h; exact hroot
      · exact commandDataEntriesList_sound commands d live count hroot e h
  | RULE_CALL rule =>
      intro e he
      simp only [commandDataEntries, List.mem_singleton] at he
      subst he; exact hroot
  | RULE_SET_CALL rule_set =>
      intro e he
      simp only [commandDataEntries, List.mem_singleton] at he
      subst he; exact hroot
  | SKIP_STATEMENT =>
      intro e he
      simp only [commandDataEntries, List.mem_singleton] at he
      subst he; exact hroot
  | FAIL_STATEMENT =>
      intro e he
      simp only [commandDataEntries, List.mem_singleton] at he
      subst he; exact hroot
  | BREAK_STATEMENT inner_loop =>
      intro e he
      simp only [commandDataEntries, List.mem_singleton] at he
      subst he; exact hroot
  | PROCEDURE_CALL commands =>
      intro e he
      simp only [commandDataEntries, List.mem_cons] at he
      rcases he with h | h
      · subst h; exact hroot
      · exact commandDataEntries_sound commands d live count hroot e h
  | IF_STATEMENT condition then_command else_command =>
      intro e he
      simp only [commandDataEntries, List.mem_cons, List.mem_append] at he
      rcases he with h | (h | h) | h
      · subst h; exact hroot
      · exact commandDataEntries_sound condition _ _ _
          (branchConditionData_live true condition then_command else_command d count live) e h
      · refine commandDataEntries_sound then_command _ _ _ ?_ e h
        exact hroot
      · refine commandDataEntries_sound else_command _ _ _ ?_ e h
        exact hroot
  | TRY_STATEMENT condition then_command else_command =>
      intro e he
      simp only [commandDataEntries, List.mem_cons, List.mem_append] at he
      rcases he with h | (h | h) | h
      · subst h; exact hroot
      · exact commandDataEntries_sound condition _ _ _
          (branchConditionData_live false condition then_command else_command d count live) e h
      · refine commandDataEntries_sound then_command _ _ _ ?_ e h
        exact hroot
      · refine commandDataEntries_sound else_command _ _ _ ?_ e h
        exact hroot
  | ALAP_STATEMENT loop_body =>
      intro e he
      simp only [commandDataEntries] at he
      revert he
      split
      · intro he
        simp only [List.mem_singleton] at he
        subst he; exact hroot
      · intro he
        simp only [List.mem_cons] at he
        rcases he with h | h
        · subst h; exact hroot
        · exact commandDataEntries_sound loop_body _ _ _
            (loopBodyData_live loop_body d count live) e h
  | PROGRAM_OR left_command right_command =>
      intro e he
      simp only [commandDataEntries, List.mem_cons, List.mem_append] at he
      rcases he with h | h | h
      · subst h; exact hroot
      · refine commandDataEntries_sound left_command _ _ _ ?_ e h
        exact hroot
      · refine commandDataEntries_sound right_command _ _ _ ?_ e h
        exact hroot

theorem commandDataEntriesList_sound (cs : List GPCommand) (d : CommandData) (live : Bool)
    (count : Nat) (hroot : 0 ≤ d.restore_point → live = true) :
    ∀ e ∈ (commandDataEntriesList cs d live count).1, 0 ≤ e.1.restore_point → e.2 = true := by
  cases cs with
  | nil => intro e he; simp [commandDataEntriesList] at he
  | cons c rest =>
      intro e he
      simp only [commandDataEntriesList, List.mem_append] at he
      rcases he with h | h
      · exact commandDataEntries_sound c d live count hroot e h
      · exact commandDataEntriesList_sound rest d live _ hroot e h

end

theorem generateFailureCode_out (graph_copying : Bool) (rule_name : Option String)
    (data : CommandData) (st : GenState) :
    (generateFailureCode graph_copying rule_name data st).out =
      st.out ++ failureCodeLines graph_copying rule_name data := by
  unfold generateFailureCode failureCodeLines
  cases rule_name <;> split_ifs <;> simp [emit, List.append_assoc]

theorem generateRuleCall_out (graph_copying : Bool) (rule_name : String) (last_rule : Bool)
    (data : CommandData) (st : GenState) :
    (generateRuleCall graph_copying rule_name false false last_rule data st).out = st.out ++
      [(data.indent, "if(match" ++ rule_name ++ "(M_" ++ rule_name ++ "))\n"),
       (data.indent, "\x7b\n"),
       (data.indent + 3,
         if data.context ≠ ContextType.IF_BODY ∨ data.restore_point ≥ 0 then
           (if data.record_changes ∧ ¬graph_copying then
              "apply" ++ rule_name ++ "(M_" ++ rule_name ++ ", true);\n"
            else "apply" ++ rule_name ++ "(M_" ++ rule_name ++ ", false);\n")
         else "initialiseMorphism(M_" ++ rule_name ++ ", host);\n"),
       (data.indent + 3, "success = true;\n")] ++
      (if last_rule then [] else [(data.indent + 3, "break;\n")]) ++
      [(data.indent, "\x7d\n")] ++
      (if last_rule then
         [(data.indent, "else\n"), (data.indent, "\x7b\n")] ++
         failureCodeLines graph_copying (some rule_name) { data with indent := data.indent + 3 } ++
         [(data.indent, "\x7d\n")]
       else []) := by
  unfold generateRuleCall
  split_ifs <;>
    simp_all [emit, generateFailureCode_out, List.append_assoc]

/- ================= Claim theorems ================= -/

/-- C7: `neverFails` agrees with the spec's case table: a rule call is
never-failing iff its rule has an empty LHS; a rule set iff every rule in it
has an empty LHS; a loop always; `skip` and `break` always; `fail` never; a
sequence iff all its elements; if/try iff both then and else branches; `or`
iff both branches. -/
theorem neverFails_case_table :
    (∀ rule : GPRuleRef, neverFails (.RULE_CALL rule) = rule.empty_lhs) ∧
    (∀ rule_set : List GPRuleRef,
      neverFails (.RULE_SET_CALL rule_set) = rule_set.all (fun r => r.empty_lhs)) ∧
    (∀ loop_body : GPCommand, neverFails (.ALAP_STATEMENT loop_body) = true) ∧
    neverFails .SKIP_STATEMENT = true ∧
    (∀ inner_loop : Bool, neverFails (.BREAK_STATEMENT inner_loop) = true) ∧
    neverFails .FAIL_STATEMENT = false ∧
    (∀ commands : List GPCommand,
      neverFails (.COMMAND_SEQUENCE commands) = commands.all neverFails) ∧
    (∀ c t e : GPCommand, neverFails (.IF_STATEMENT c t e) = (neverFails t && neverFails e)) ∧
    (∀ c t e : GPCommand, neverFails (.TRY_STATEMENT c t e) = (neverFails t && neverFails e)) ∧
    (∀ l r : GPCommand, neverFails (.PROGRAM_OR l r) = (neverFails l && neverFails r)) := by
  refine ⟨fun _ => rfl, fun _ => rfl, fun _ => rfl, rfl, fun _ => rfl, rfl, ?_,
    fun _ _ _ => rfl, fun _ _ _ => rfl, fun _ _ => rfl⟩
  intro commands
  show neverFailsList commands = commands.all neverFails
  induction commands with
  | nil => rfl
  | cons c cs ih => simp [neverFailsList, List.all_cons, ih]

/-- C5: `generateFailureCode` is a total dispatch on the context.  In
`MAIN_BODY` it prints the failure cause to the output file, runs teardown
(`garbageCollect`) and returns 0; in `IF_BODY` and `TRY_BODY` it sets
`success = false` and breaks out of the do-once block; in `LOOP_BODY` it sets
`success = false` and, when a restore point is active, undoes the host graph
to it (change recording) or pops the graph copy (graph copying). -/
theorem generateFailureCode_dispatch (graph_copying : Bool) (rule_name : Option String)
    (data : CommandData) (st : GenState) :
    (data.context = ContextType.MAIN_BODY →
      (generateFailureCode graph_copying rule_name data st).out = st.out ++
        [(data.indent,
          match rule_name with
          | some n =>
              "fprintf(output_file, \"No output graph: rule " ++ n ++ " not applicable.\\n\");\n"
          | none => "fprintf(output_file, \"No output graph: Fail statement invoked\\n\");\n"),
         (data.indent, "printf(\"Output information saved to file gp2.output\\n\");\n"),
         (data.indent, "garbageCollect();\n"),
         (data.indent, "fclose(output_file);\n"),
         (data.indent, "return 0;\n")]) ∧
    ((data.context = ContextType.IF_BODY ∨ data.context = ContextType.TRY_BODY) →
      (generateFailureCode graph_copying rule_name data st).out = st.out ++
        [(data.indent, "success = false;\n"), (data.indent, "break;\n")]) ∧
    (data.context = ContextType.LOOP_BODY →
      (generateFailureCode graph_copying rule_name data st).out = st.out ++
        (data.indent, "success = false;\n") ::
        (if data.restore_point ≥ 0 then
           [(data.indent,
             if graph_copying then "host = popGraphs(" ++ toString data.restore_point ++ ");\n"
             else "undoChanges(host, restore_point" ++ toString data.restore_point ++ ");\n")]
         else [])) := by
  refine ⟨?_, ?_, ?_⟩ <;> intro h <;> rw [generateFailureCode_out] <;>
    first
    | (rcases h with h | h <;> simp [failureCodeLines, h])
    | simp [failureCodeLines, h]

/-- C5 witness: in a loop body with active restore point 0 under change
recording, failure of rule `r1` emits `success = false;` followed by the undo
to restore point 0. -/
theorem generateFailureCode_dispatch_witness :
    (generateFailureCode false (some "r1")
      ⟨ContextType.LOOP_BODY, 1, true, 0, 3⟩ initialGenState).out =
      [(3, "success = false;\n"), (3, "undoChanges(host, restore_point0);\n")] := by
  have h := (generateFailureCode_dispatch false (some "r1")
    ⟨ContextType.LOOP_BODY, 1, true, 0, 3⟩ initialGenState).2.2 rfl
  simpa [initialGenState] using h

/-- C6: for a non-predicate rule call with a non-empty LHS, the emitted
success branch applies the rule exactly when the context is not `IF_BODY` or
a restore point is active; otherwise (`IF_BODY` with no restore point) the
success branch contains only the re-initialisation of the rule's morphism, so
the matched rule does not mutate the host graph. -/
theorem generateRuleCall_if_body_match_only (graph_copying : Bool) (rule_name : String)
    (last_rule : Bool) (data : CommandData) (st : GenState) :
    ((data.context ≠ ContextType.IF_BODY ∨ data.restore_point ≥ 0) →
      (generateRuleCall graph_copying rule_name false false last_rule data st).out = st.out ++
        [(data.indent, "if(match" ++ rule_name ++ "(M_" ++ rule_name ++ "))\n"),
         (data.indent, "\x7b\n"),
         (data.indent + 3,
           if data.record_changes ∧ ¬graph_copying then
             "apply" ++ rule_name ++ "(M_" ++ rule_name ++ ", true);\n"
           else "apply" ++ rule_name ++ "(M_" ++ rule_name ++ ", false);\n"),
         (data.indent + 3, "success = true;\n")] ++
        (if last_rule then [] else [(data.indent + 3, "break;\n")]) ++
        [(data.indent, "\x7d\n")] ++
        (if last_rule then
           [(data.indent, "else\n"), (data.indent, "\x7b\n")] ++
           failureCodeLines graph_copying (some rule_name) { data with indent := data.indent + 3 } ++
           [(data.indent, "\x7d\n")]
         else [])) ∧
    (data.context = ContextType.IF_BODY ∧ data.restore_point < 0 →
      (generateRuleCall graph_copying rule_name false false last_rule data st).out = st.out ++
        [(data.indent, "if(match" ++ rule_name ++ "(M_" ++ rule_name ++ "))\n"),
         (data.indent, "\x7b\n"),
         (data.indent + 3, "initialiseMorphism(M_" ++ rule_name ++ ", host);\n"),
         (data.indent + 3, "success = true;\n")] ++
        (if last_rule then [] else [(data.indent + 3, "break;\n")]) ++
        [(data.indent, "\x7d\n")] ++
        (if last_rule then
           [(data.indent, "else\n"), (data.indent, "\x7b\n")] ++
           failureCodeLines graph_copying (some rule_name) { data with indent := data.indent + 3 } ++
           [(data.indent, "\x7d\n")]
         else [])) := by
  constructor <;> intro h <;> rw [generateRuleCall_out]
  · rw [if_pos h]
  · rw [if_neg ?_]
    intro hor
    rcases hor with hne | hge
    · exact hne h.1
    · omega

/-- C6 witness: inside an if condition with no restore point, matching does
not apply the rule; only `initialiseMorphism` is emitted before setting
`success`. -/
theorem generateRuleCall_if_body_match_only_witness :
    (generateRuleCall false "r1" false false true
      ⟨ContextType.IF_BODY, 0, false, -1, 3⟩ initialGenState).out =
      [(3, "if(matchr1(M_r1))\n"), (3, "\x7b\n"),
       (6, "initialiseMorphism(M_r1, host);\n"), (6, "success = true;\n"),
       (3, "\x7d\n"), (3, "else\n"), (3, "\x7b\n"),
       (6, "success = false;\n"), (6, "break;\n"), (3, "\x7d\n")] := by
  have h := (generateRuleCall_if_body_match_only false "r1" true
    ⟨ContextType.IF_BODY, 0, false, -1, 3⟩ initialGenState).2 ⟨rfl, by decide⟩
  rw [h]
  decide

/-- C10: in a `LOOP_BODY` context the generated code for a command sequence
inserts `if(!success) break;` after every element except the last (so a
failing element skips the rest and exits the enclosing `while(success)`),
and in every other context no check is inserted between elements. -/
theorem loop_body_sequence_break_check (graph_copying : Bool) (data : CommandData)
    (st : GenState) (c : GPCommand) (rest : List GPCommand) :
    generateProgramCode graph_copying (.COMMAND_SEQUENCE (c :: rest)) data st =
      genBind (generateProgramCode graph_copying c data st) (fun st1 =>
        generateProgramCode graph_copying (.COMMAND_SEQUENCE rest) data
          (if data.context = ContextType.LOOP_BODY ∧ rest.isEmpty = false then
             emit st1 data.indent "if(!success) break;\n\n"
           else st1)) := rfl

/-- C1 (code evaluation at the failing input): under the graph-copying
strategy, generating `try (r1; r1) then skip else skip` captures the restore
point with `copyGraph(host);` yet emits `discardChanges(restore_point0);` at
then-branch entry -- the change-recording discard, referring to a variable
`restore_point0` that is never declared (no `int restore_point0 = ...` line is
emitted), and no `popGraphs`/`freeGraph` pair frees the pushed graph copy. -/
theorem try_then_branch_graph_copying_divergence :
    ((6, "discardChanges(restore_point0);\n") ∈
      outputOf (generateProgramCode true tryCopyProg initialData initialGenState)) ∧
    ((3, "copyGraph(host);\n") ∈
      outputOf (generateProgramCode true tryCopyProg initialData initialGenState)) ∧
    ((outputOf (generateProgramCode true tryCopyProg initialData initialGenState)).all
      (fun l => l.2 ≠
        "int restore_point0 = graph_change_stack == NULL ? 0 : topOfGraphChangeStack();\n")
      = true) ∧
    ((outputOf (generateProgramCode true tryCopyProg initialData initialGenState)).all
      (fun l => l.2 ≠ "Graph *copy = popGraphs(0);\n") = true) := by
  decide

/-- C2 counterexample: for `Main = (r1!)!` the generator does not emit two
restore points (nor any code): it aborts with the non-termination error
before any allocation or emission, leaving the state untouched. -/
theorem nested_loop_generation_aborts :
    generateProgramCode false (.ALAP_STATEMENT (.ALAP_STATEMENT (.RULE_CALL ruleR1)))
      initialData initialGenState =
    .error ("Error: Nontermination in loop.\n", initialGenState) := by
  decide

/-- C2 (amended): for any rule `r1` and any context, generating
`(r1!)!` aborts with the non-termination error, because the inner loop
`r1!` is classified never-failing; no restore point is allocated and nothing
is emitted. -/
theorem nested_loop_nontermination_error (graph_copying : Bool) (rule : GPRuleRef)
    (data : CommandData) (st : GenState) :
    generateProgramCode graph_copying
      (.ALAP_STATEMENT (.ALAP_STATEMENT (.RULE_CALL rule))) data st =
    .error ("Error: Nontermination in loop.\n", st) := by
  simp [generateProgramCode, neverFails]

/-- C3 counterexample: in `if (if r1 then skip else skip) then skip else
skip`, the inner condition `r1` is emitted with `restore_point = -1` although
the outer if's frame (restore point 0) is live around it: the claimed "iff"
fails. -/
theorem restore_point_liveness_not_iff :
    ∃ e ∈ (commandDataEntries nestedIfProg initialData false 0).1,
      ¬(0 ≤ e.1.restore_point ↔ e.2 = true) := by
  decide

/-- C3 (amended): the forward direction holds: whenever a subcommand's
`CommandData` has `restore_point ≥ 0`, some enclosing branch condition or
loop body established a restore frame whose lifetime encloses that subcommand
(given that the root data is itself consistent).  The converse direction is
refuted by the counterexample: a suppressed (singleRule/null) branch
condition or loop body receives `restore_point = -1` under a live enclosing
frame. -/
theorem restore_point_nonneg_implies_live (c : GPCommand) (d : CommandData) (live : Bool)
    (count : Nat) (hroot : 0 ≤ d.restore_point → live = true) :
    ∀ e ∈ (commandDataEntries c d live count).1, 0 ≤ e.1.restore_point → e.2 = true :=
  commandDataEntries_sound c d live count hroot

/-- C3 witness: the inner if statement of the nested-if program is emitted
with restore point 0 and the enclosing frame is indeed live there. -/
theorem restore_point_nonneg_implies_live_witness :
    ((commandDataEntries nestedIfProg initialData false 0).1.getD 1 (initialData, false)).2
      = true :=
  restore_point_nonneg_implies_live nestedIfProg initialData false 0 (by decide)
    ((commandDataEntries nestedIfProg initialData false 0).1.getD 1 (initialData, false))
    (by decide) (by decide)

/-- C4 counterexample: invoking the generator twice in the same process on
the same declaration list (the global restore-point counter persisting, as in
the C source where `restore_point_count` is never reset) yields different
output: the second run names the restore point `restore_point1` instead of
`restore_point0`.  Both runs succeed. -/
theorem generateRuntimeMain_not_idempotent :
    genOk (generateRuntimeMain false false ifAllocDecls initialGenState) = true ∧
    genOk (generateRuntimeMain false false ifAllocDecls
      (carryGlobals (generateRuntimeMain false false ifAllocDecls initialGenState))) = true ∧
    outputOf (generateRuntimeMain false false ifAllocDecls initialGenState) ≠
      outputOf (generateRuntimeMain false false ifAllocDecls
        (carryGlobals (generateRuntimeMain false false ifAllocDecls initialGenState))) := by
  decide

/-- C4 (amended): generation is deterministic -- it is a pure function of the
declaration list and the restore-point counter -- so a second in-process
invocation is byte-identical exactly when the first invocation left the
counter unchanged (allocated no restore point); in that case the second run
reproduces the first run's result state exactly. -/
theorem generateRuntimeMain_deterministic_same_counter (graph_copying list_hashing : Bool)
    (declarations : List GPDeclaration) (st st1 : GenState)
    (h : generateRuntimeMain graph_copying list_hashing declarations st = .ok st1)
    (hout : st.out = [])
    (hc : st1.restore_point_count = st.restore_point_count) :
    generateRuntimeMain graph_copying list_hashing declarations
      (carryGlobals (generateRuntimeMain graph_copying list_hashing declarations st)) =
      .ok st1 := by
  obtain ⟨cnt, out, als⟩ := st
  have hev := generateRuntimeMain_evolution graph_copying list_hashing declarations ⟨cnt, out, als⟩
  rw [h] at hev
  have hal : st1.allocs = als := evolution_allocs_of_count_eq hev hc
  rw [h]
  show generateRuntimeMain graph_copying list_hashing declarations
    ⟨st1.restore_point_count, [], st1.allocs⟩ = .ok st1
  rw [hc, hal]
  simp only at hout
  rw [← hout]
  exact h

/-- C4 witness: for a main program with no restore points, a second
in-process invocation reproduces the first one exactly. -/
theorem generateRuntimeMain_deterministic_same_counter_witness :
    generateRuntimeMain false false noAllocDecls
      (carryGlobals (generateRuntimeMain false false noAllocDecls initialGenState)) =
      .ok (resState (generateRuntimeMain false false noAllocDecls initialGenState)) :=
  generateRuntimeMain_deterministic_same_counter false false noAllocDecls initialGenState
    (resState (generateRuntimeMain false false noAllocDecls initialGenState))
    (by decide) rfl (by decide)

/-- C8 counterexample: the counter is post-incremented, not pre-incremented:
the first allocation takes id 0 (the counter's value before the increment)
and leaves the counter at 1, and the emitted declaration names
`restore_point0`; under pre-incrementing the allocated id would equal the
incremented counter and the variable would be `restore_point1`, which never
appears. -/
theorem restore_point_counter_post_incremented :
    (resState (generateProgramCode false ifAllocProg initialData initialGenState)).allocs
      = [0] ∧
    (resState (generateProgramCode false ifAllocProg initialData
      initialGenState)).restore_point_count = 1 ∧
    ((3, "int restore_point0 = graph_change_stack == NULL ? 0 : topOfGraphChangeStack();\n")
      ∈ outputOf (generateProgramCode false ifAllocProg initialData initialGenState)) ∧
    ((outputOf (generateProgramCode false ifAllocProg initialData initialGenState)).all
      (fun l => l.2 ≠
        "int restore_point1 = graph_change_stack == NULL ? 0 : topOfGraphChangeStack();\n")
      = true) := by
  decide

/-- C8 (amended): each allocation takes the counter's current value and then
increments it; across any generation run the counter is monotone, every
recorded allocation id stays below the final counter, the allocation log
remains strictly increasing, and hence all allocated restore-point ids are
pairwise distinct (in particular no two live restore points share an id). -/
theorem restore_point_allocations_distinct (graph_copying : Bool) (command : GPCommand)
    (data : CommandData) (st st' : GenState)
    (h : generateProgramCode graph_copying command data st = .ok st')
    (h1 : List.Chain' (· < ·) st.allocs)
    (h2 : ∀ a ∈ st.allocs, a < st.restore_point_count) :
    st.restore_point_count ≤ st'.restore_point_count ∧
    List.Chain' (· < ·) st'.allocs ∧
    (∀ a ∈ st'.allocs, a < st'.restore_point_count) ∧
    st'.allocs.Nodup := by
  have hev := generateProgramCode_evolution graph_copying command data st
  rw [h] at hev
  obtain ⟨-, hc, as, ha, ch, hb⟩ := hev
  have hch : List.Chain' (· < ·) st'.allocs := by
    rw [ha, List.chain'_append]
    refine ⟨h1, ch, fun x hx y hy => ?_⟩
    exact lt_of_lt_of_le (h2 x (List.mem_of_mem_getLast? hx))
      (hb y (List.mem_of_mem_head? hy)).1
  refine ⟨hc, hch, ?_, ?_⟩
  · intro a ha2
    rw [ha] at ha2
    rcases List.mem_append.mp ha2 with hmem | hmem
    · exact lt_of_lt_of_le (h2 a hmem) hc
    · exact (hb a hmem).2
  · rw [List.chain'_iff_pairwise] at hch
    exact hch.imp Nat.ne_of_lt

/-- C8 witness: the nested-try program from a fresh state yields pairwise
distinct allocation ids, all below the final counter. -/
theorem restore_point_allocations_distinct_witness :
    (resState (generateProgramCode false ifAllocProg initialData initialGenState)).allocs.Nodup :=
  (restore_point_allocations_distinct false ifAllocProg initialData initialGenState
    (resState (generateProgramCode false ifAllocProg initialData initialGenState))
    (by decide) (by decide) (by decide)).2.2.2

/-- Everything after the fixed prelude of the emitted main: the main bodies
and the closing lines only extend the file. -/
theorem mainDecls_tail_out (graph_copying : Bool) (declarations : List GPDeclaration)
    (st2 : GenState) :
    ∃ t, outputOf (genBind (generateMainDecls graph_copying declarations st2)
      (fun st3 => .ok (emitAll st3 runtimeTailLines))) = st2.out ++ t := by
  have hev := generateMainDecls_evolution graph_copying declarations st2
  cases hm : generateMainDecls graph_copying declarations st2 with
  | error e =>
      rw [hm] at hev
      obtain ⟨⟨ls, hls⟩, -⟩ := hev
      simp only [resState] at hls
      exact ⟨ls, by simp [genBind, outputOf, hls]⟩
  | ok stO =>
      rw [hm] at hev
      obtain ⟨⟨ls, hls⟩, -⟩ := hev
      simp only [resState] at hls
      refine ⟨ls ++ runtimeTailLines, ?_⟩
      simp only [genBind, outputOf, emitAll]
      rw [hls, List.append_assoc]

/-- C9: whatever the declarations and strategy, the emitted `main` returns 0
not only on success but also on the two failure paths: it contains the
missing-argument check and the host-parse-failure check, each printing an
error message to standard error and then `return 0;` (OS success), exactly as
in `argcCheckLines` and `hostParseFailLines`; and whenever generation
succeeds, the file ends with `runtimeTailLines`, whose success path closes
with `return 0;` after printing the output graph and running teardown. -/
theorem emitted_main_returns_zero_on_failure (graph_copying list_hashing : Bool)
    (declarations : List GPDeclaration) (st : GenState) :
    (∃ p q, outputOf (generateRuntimeMain graph_copying list_hashing declarations st) =
       p ++ argcCheckLines ++ q) ∧
    (∃ p q, outputOf (generateRuntimeMain graph_copying list_hashing declarations st) =
       p ++ hostParseFailLines ++ q) ∧
    (∀ st', generateRuntimeMain graph_copying list_hashing declarations st = .ok st' →
       ∃ p, st'.out = p ++ runtimeTailLines) := by
  refine ⟨?_, ?_, ?_⟩
  · unfold generateRuntimeMain
    obtain ⟨t, ht⟩ := mainDecls_tail_out graph_copying declarations _
    rw [ht]
    refine ⟨st.out ++ runtimeIncludes ++ generateMorphismCode declarations 'd'
      ++ generateMorphismCode declarations 'f' ++ garbageCollectLines graph_copying list_hashing
      ++ hostDeclLines ++ buildHostGraphLines ++ successDeclLines ++ mainOpenLines,
      buildHostCallLines ++ hostParseFailLines ++ outputFileLines
      ++ generateMorphismCode declarations 'm' ++ t, ?_⟩
    simp [emitAll, List.append_assoc]
  · unfold generateRuntimeMain
    obtain ⟨t, ht⟩ := mainDecls_tail_out graph_copying declarations _
    rw [ht]
    refine ⟨st.out ++ runtimeIncludes ++ generateMorphismCode declarations 'd'
      ++ generateMorphismCode declarations 'f' ++ garbageCollectLines graph_copying list_hashing
      ++ hostDeclLines ++ buildHostGraphLines ++ successDeclLines ++ mainOpenLines
      ++ argcCheckLines ++ buildHostCallLines,
      outputFileLines ++ generateMorphismCode declarations 'm' ++ t, ?_⟩
    simp [emitAll, List.append_assoc]
  · intro st' h
    unfold generateRuntimeMain at h
    unfold genBind at h
    dsimp only at h
    split at h
    · exact absurd h (by simp)
    · injection h with h2
      subst h2
      exact ⟨_, rfl⟩

/-- C9 witness: for a concrete declaration list the generation succeeds and
its output ends with `runtimeTailLines` (in particular with the success-path
`return 0;`). -/
theorem emitted_main_returns_zero_on_failure_witness :
    ∃ p, (resState (generateRuntimeMain false false noAllocDecls initialGenState)).out =
      p ++ runtimeTailLines :=
  (emitted_main_returns_zero_on_failure false false noAllocDecls initialGenState).2.2
    (resState (generateRuntimeMain false false noAllocDecls initialGenState)) (by decide)
